import Mathlib

/-!
Shallow embedding of `hddtemp.py`: a minimal hddtemp-compatible utility that
invokes `smartctl`, classifies its JSON output into `DiskReading` values,
caches readings, and renders them either in direct mode or in the daemon
wire format.

Modelling conventions:
* JSON scalars are `null`, booleans, integers and strings; floating-point
  scalars are outside the model (no claim depends on them).  Python's `bool`
  is a subclass of `int`, which `parse_int` reflects.
* The external `smartctl` subprocess is modelled by a `RunOutcome` value:
  the binary may be missing, the call may time out, or the process ran and
  produced stdout/stderr text together with the result of JSON-decoding its
  stdout (`none` = `json.JSONDecodeError`).  Per the collaborator contract
  the decoded document is a JSON object, modelled as an association list.
* `time.monotonic()` values are rationals supplied explicitly to
  `ReadingCache.get`; the `threading.Lock` makes the whole body of `get`
  atomic, so `get` is modelled as one atomic state transition.
-/

namespace HddTemp

/-- A JSON value as produced by `json.loads` (floating-point scalars omitted). -/
inductive Json where
  | null
  | bool (b : Bool)
  | int (n : Int)
  | str (s : String)
  | arr (items : List Json)
  | obj (fields : List (String × Json))

/-- A JSON object: association list of fields, first binding wins on lookup. -/
abbrev JDict := List (String × Json)

/-- Python dict lookup `d.get(key)` (absent key gives `None`). -/
def dictGet : JDict → String → Option Json
  | [], _ => none
  | (k, v) :: rest, key => if k == key then some v else dictGet rest key

/-- The `DeviceSpec` dataclass: raw identifier, device path, optional `-d` type. -/
structure DeviceSpec where
  raw : String
  drive : String
  smartctl_type : Option String
deriving DecidableEq, Repr

/-- The `DiskReading` dataclass: status is one of KNOWN | NOS | UNK | NA | SLP | ERR. -/
structure DiskReading where
  drive : String
  model : String
  status : String
  temperature_c : Option Int
  detail : String
deriving DecidableEq, Repr

/-- Python `str.strip()`: drop whitespace from both ends (structural, so it
reduces in the kernel). -/
def strTrim (s : String) : String :=
  String.mk (((s.toList.dropWhile Char.isWhitespace).reverse.dropWhile Char.isWhitespace).reverse)

/-- Lowercase a string (`str.lower()`; the marker strings are ASCII). -/
def strLower (s : String) : String := String.mk (s.toList.map Char.toLower)

/-- Python `needle in haystack` on strings (substring containment). -/
def containsSub (haystack needle : String) : Bool :=
  decide (needle.toList <:+: haystack.toList)

/-- First match of the regex `-?\d+`: leftmost optional sign plus digit run. -/
def findIntMatch : List Char → Option (Bool × List Char)
  | [] => none
  | c :: rest =>
    if c.isDigit then some (false, (c :: rest).takeWhile Char.isDigit)
    else if c = '-' then
      match rest with
      | [] => none
      | d :: _ =>
        if d.isDigit then some (true, rest.takeWhile Char.isDigit)
        else findIntMatch rest
    else findIntMatch rest

/-- Numeric value of a digit run. -/
def digitsToNat (ds : List Char) : Nat :=
  ds.foldl (fun a c => a * 10 + (c.toNat - 48)) 0

/-- Embeds `parse_int`: ints (and bools, a Python `int` subclass) pass through; the
first `-?\d+` match inside a string is parsed; everything else is `None`. -/
def parse_int : Json → Option Int
  | .int n => some n
  | .bool b => some (if b then 1 else 0)
  | .str s =>
    match findIntMatch s.toList with
    | some (neg, ds) => some (if neg then -(digitsToNat ds : Int) else (digitsToNat ds : Int))
    | none => none
  | _ => none

/-- Embeds `normalize_temp_c`: values above 200 are Kelvin (subtract 273); anything
outside [-80, 200] after adjustment is rejected.  The argument is the result
of a dict lookup, so an absent value (`None`) is rejected as well. -/
def normalize_temp_c (value : Option Json) : Option Int :=
  match value with
  | none => none
  | some j =>
    match parse_int j with
    | none => none
    | some parsed =>
      let adjusted := if parsed > 200 then parsed - 273 else parsed
      if adjusted < -80 ∨ adjusted > 200 then none else some adjusted

/-- Embeds `first_non_empty_string`: first string candidate whose strip is non-empty,
returned stripped. -/
def first_non_empty_string : List (Option Json) → Option String
  | [] => none
  | c :: rest =>
    match c with
    | some (.str s) => if strTrim s ≠ "" then some (strTrim s) else first_non_empty_string rest
    | _ => first_non_empty_string rest

/-- Embeds `extract_model`: first non-empty model-ish field, falling back to the drive path. -/
def extract_model (data : JDict) (drive : String) : String :=
  let deviceInfo : JDict :=
    match dictGet data "device" with
    | some (.obj fs) => fs
    | _ => []
  match first_non_empty_string
      [dictGet data "model_name", dictGet data "nvme_model_name",
       dictGet data "scsi_model_name", dictGet data "product",
       dictGet deviceInfo "model_name", dictGet deviceInfo "name",
       some (.str drive)] with
  | some m => m
  | none => drive

/-- Source (1): generic `temperature.current`. -/
def extractTempGeneric (data : JDict) : Option Int :=
  match dictGet data "temperature" with
  | some (.obj fields) => normalize_temp_c (dictGet fields "current")
  | _ => none

/-- Source (2): `scsi_temperature.current`. -/
def extractTempScsi (data : JDict) : Option Int :=
  match dictGet data "scsi_temperature" with
  | some (.obj fields) => normalize_temp_c (dictGet fields "current")
  | _ => none

/-- Source (3): `nvme_smart_health_information_log.temperature`. -/
def extractTempNvme (data : JDict) : Option Int :=
  match dictGet data "nvme_smart_health_information_log" with
  | some (.obj fields) => normalize_temp_c (dictGet fields "temperature")
  | _ => none

/-- Python comparison `row.get("id") != attr_id` (negated) on a JSON value against a Python int
(bools compare as 0/1, other types never equal an int). -/
def jsonIdEq (v : Option Json) (attrId : Int) : Bool :=
  match v with
  | some (.int m) => m == attrId
  | some (.bool b) => (if b then (1 : Int) else 0) == attrId
  | _ => false

/-- Inner body of the ATA row scan: `row.get("raw", \x7b\x7d)` value first
(when `raw` is a dict, including the `\x7b\x7d` default), then the row's
plain `value`. -/
def ataRowValue (row : JDict) : Option Int :=
  let fromRaw : Option Int :=
    match dictGet row "raw" with
    | some (.obj rawFields) => normalize_temp_c (dictGet rawFields "value")
    | some _ => none
    | none => none
  match fromRaw with
  | some v => some v
  | none => normalize_temp_c (dictGet row "value")

/-- The `for row in table` scan for a fixed `attr_id`: first dict row with that id
whose raw/plain value normalizes. -/
def findAtaRow (attrId : Int) : List Json → Option Int
  | [] => none
  | row :: rest =>
    match row with
    | .obj fields =>
      if jsonIdEq (dictGet fields "id") attrId then
        match ataRowValue fields with
        | some v => some v
        | none => findAtaRow attrId rest
      else findAtaRow attrId rest
    | _ => findAtaRow attrId rest

/-- Source (4): ATA attribute table, ids 194 then 190 then 231. -/
def extractTempAta (data : JDict) : Option Int :=
  match dictGet data "ata_smart_attributes" with
  | some (.obj ataFields) =>
    match dictGet ataFields "table" with
    | some (.arr table) =>
      match findAtaRow 194 table with
      | some v => some v
      | none =>
        match findAtaRow 190 table with
        | some v => some v
        | none => findAtaRow 231 table
    | _ => none
  | _ => none

/-- Embeds `extract_temperature_c`: the four sources in order, first success wins. -/
def extract_temperature_c (data : JDict) : Option Int :=
  match extractTempGeneric data with
  | some v => some v
  | none =>
    match extractTempScsi data with
    | some v => some v
    | none =>
      match extractTempNvme data with
      | some v => some v
      | none => extractTempAta data

/-- One entry of `smartctl.messages`: its `string` field when it is a string. -/
def messageString (m : Json) : Option String :=
  match m with
  | .obj mf =>
    match dictGet mf "string" with
    | some (.str v) => some v
    | _ => none
  | _ => none

/-- Embeds `gather_messages`: every `smartctl.messages[].string`, then the stderr
text when non-empty, joined with newlines. -/
def gather_messages (data : JDict) (stderr : String) : String :=
  let fromPayload : List String :=
    match dictGet data "smartctl" with
    | some (.obj sFields) =>
      match dictGet sFields "messages" with
      | some (.arr msgs) => msgs.filterMap messageString
      | _ => []
    | _ => []
  let messages := if stderr ≠ "" then fromPayload ++ [stderr] else fromPayload
  String.intercalate "\n" messages

/-- Embeds `infer_status_from_messages`: marker scan over the lowercased text. -/
def infer_status_from_messages (messages : String) (has_temp : Bool) : String :=
  let lowered := strLower messages
  if containsSub lowered "standby" || containsSub lowered "sleep" then "SLP"
  else if containsSub lowered "permission denied" || containsSub lowered "unable to open device" then "ERR"
  else if containsSub lowered "no such device" || containsSub lowered "cannot open" then "ERR"
  else if containsSub lowered "smart support is: unavailable" then "NA"
  else if containsSub lowered "unknown usb bridge" then "NA"
  else if has_temp then "KNOWN"
  else if containsSub lowered "temperature" && containsSub lowered "not" then "NOS"
  else "NOS"

/-- Outcome of the external `smartctl` subprocess call: binary missing
(`FileNotFoundError`), timeout (`subprocess.TimeoutExpired`), or the process
ran with the given stdout/stderr and JSON-decode result for the stdout
(`none` models `json.JSONDecodeError`; per the collaborator contract the
decoded document is an object). -/
inductive RunOutcome where
  | notFound
  | timedOut
  | ran (stdout : String) (stderr : String) (parsed : Option JDict)

/-- Command line built by `run_smartctl` (behaviour of the subprocess itself
is abstracted into `RunOutcome`). -/
def smartctl_cmd (spec : DeviceSpec) (wake_up : Bool) : List String :=
  ["smartctl", "-a", "-j"]
    ++ (match spec.smartctl_type with
        | some t => ["-d", t]
        | none => [])
    ++ (if wake_up then [] else ["-n", "standby"])
    ++ [spec.drive]

/-- Classification tail of `run_smartctl` (lines 236-255): model, temperature,
messages, inferred status; an extracted temperature forces status `KNOWN`. -/
def classify (spec : DeviceSpec) (parsed : JDict) (stderr : String) : DiskReading :=
  let model := extract_model parsed spec.drive
  let temperature_c := extract_temperature_c parsed
  let messages := gather_messages parsed stderr
  let status := infer_status_from_messages messages temperature_c.isSome
  match temperature_c with
  | some t =>
    { drive := spec.drive, model := model, status := "KNOWN",
      temperature_c := some t, detail := strTrim messages }
  | none =>
    { drive := spec.drive, model := model, status := status,
      temperature_c := none, detail := strTrim messages }

/-- Embeds `run_smartctl`: failure outcomes become `ERR` readings; a
whitespace-only stdout is treated as the empty JSON object without consulting
the decoder; a decode failure becomes an `ERR` reading whose detail falls
back from stderr to stdout to a generic message; otherwise classify. -/
def run_smartctl (spec : DeviceSpec) (wake_up : Bool) (outcome : RunOutcome) : DiskReading :=
  let _cmd := smartctl_cmd spec wake_up
  match outcome with
  | .notFound =>
    { drive := spec.drive, model := spec.drive, status := "ERR",
      temperature_c := none, detail := "smartctl not found (install smartmontools)" }
  | .timedOut =>
    { drive := spec.drive, model := spec.drive, status := "ERR",
      temperature_c := none, detail := "smartctl timed out" }
  | .ran stdout stderr parsed =>
    if strTrim stdout = "" then classify spec [] stderr
    else
      match parsed with
      | none =>
        let message :=
          if strTrim stderr ≠ "" then strTrim stderr
          else if strTrim stdout ≠ "" then strTrim stdout
          else "invalid smartctl output"
        { drive := spec.drive, model := spec.drive, status := "ERR",
          temperature_c := none, detail := message }
      | some p => classify spec p stderr

/-- Embeds `convert_temperature`: Fahrenheit is `int(round(c*9/5+32))`.
Since `9*c/5` has fractional part in 0, .2, .4, .6, .8, no half-integer tie
ever arises and Python's round-half-even equals the nearest integer,
computed exactly as `floor((18*c+325)/10)`. -/
def convert_temperature (temp_c : Int) (unit : String) : Int :=
  if unit == "F" then Int.fdiv (18 * temp_c + 325) 10 else temp_c

/-- Fall-through branch of `direct_mode_output` (everything after the
`KNOWN`-with-temperature case). -/
def direct_mode_fallback (reading : DiskReading) (numeric quiet : Bool) : String × Bool × Bool :=
  if numeric && quiet then ("0\n", true, false)
  else if reading.status == "SLP" then
    (reading.drive ++ ": " ++ reading.model ++ ": drive is sleeping\n", false, false)
  else if reading.status == "NOS" || reading.status == "UNK" then
    (reading.drive ++ ": " ++ reading.model ++ ": no sensor\n", false, false)
  else if reading.status == "NA" then
    (reading.drive ++ ": " ++ reading.model ++ ": not supported\n", false, false)
  else
    let detail := if reading.detail ≠ "" then reading.detail else "temperature query failed"
    (reading.drive ++ ": " ++ reading.model ++ ": " ++ detail ++ "\n", false, true)

/-- Embeds `direct_mode_output`: returns (text, goes-to-stdout, hard-error). -/
def direct_mode_output (reading : DiskReading) (numeric quiet : Bool) (unit : String) :
    String × Bool × Bool :=
  match reading.temperature_c with
  | some t =>
    if reading.status == "KNOWN" then
      let value := convert_temperature t unit
      if numeric then (toString value ++ "\n", true, false)
      else (reading.drive ++ ": " ++ reading.model ++ ": " ++ toString value ++ "°" ++ unit ++ "\n",
            true, false)
    else direct_mode_fallback reading numeric quiet
  | none => direct_mode_fallback reading numeric quiet

/-- Status-to-field map of the formatter: identity on the five non-`KNOWN`
codes, anything else coerced to `ERR`. -/
def status_field (status : String) : String :=
  if status == "NA" || status == "UNK" || status == "NOS" || status == "SLP" || status == "ERR"
  then status else "ERR"

/-- One framed record of the daemon payload (one loop iteration of
`format_daemon_payload`). -/
def daemon_record (separator unit : String) (reading : DiskReading) : String :=
  match reading.temperature_c with
  | some t =>
    if reading.status == "KNOWN" then
      separator ++ reading.drive ++ separator ++ reading.model ++ separator
        ++ toString (convert_temperature t unit) ++ separator ++ unit ++ separator
    else
      separator ++ reading.drive ++ separator ++ reading.model ++ separator
        ++ status_field reading.status ++ separator ++ "*" ++ separator
  | none =>
    separator ++ reading.drive ++ separator ++ reading.model ++ separator
      ++ status_field reading.status ++ separator ++ "*" ++ separator

/-- Embeds `format_daemon_payload`: the records concatenated in order with no
separating newline (the loop plus `"".join`). -/
def format_daemon_payload (readings : List DiskReading) (separator unit : String) : String :=
  match readings with
  | [] => ""
  | r :: rest => daemon_record separator unit r ++ format_daemon_payload rest separator unit

/-- State of `ReadingCache`: configuration plus the lock-guarded mutable pair
(`last_update`, `readings`).  Monotonic-clock values are rationals. -/
structure ReadingCache where
  devices : List DeviceSpec
  wake_up : Bool
  min_interval : Int
  last_update : ℚ
  readings : List DiskReading
deriving DecidableEq

/-- Constructor `ReadingCache.__init__`. -/
def ReadingCache.init (devices : List DeviceSpec) (wake_up : Bool) (min_interval : Int) :
    ReadingCache :=
  { devices := devices, wake_up := wake_up, min_interval := min_interval,
    last_update := 0, readings := [] }

/-- Refresh condition of `get`: `not self.readings or (now - self.last_update)
>= self.min_interval`. -/
def ReadingCache.refreshes (c : ReadingCache) (now : ℚ) : Bool :=
  c.readings.isEmpty || decide ((c.min_interval : ℚ) ≤ now - c.last_update)

/-- Embeds `ReadingCache.get` as one atomic state transition (the body runs
under `self.lock`): refresh every device in configuration order when due,
then return the snapshot and the successor state.  The per-device subprocess
behaviour is supplied by `outcomes`. -/
def ReadingCache.get (c : ReadingCache) (now : ℚ) (outcomes : DeviceSpec → RunOutcome) :
    List DiskReading × ReadingCache :=
  if c.refreshes now then
    let readings := c.devices.map (fun device => run_smartctl device c.wake_up (outcomes device))
    (readings, { c with readings := readings, last_update := now })
  else (c.readings, c)

/-- Snapshot consistency: either no snapshot yet, or one reading per
configured device, in configuration order (the drive paths of the snapshot
are exactly the configured device paths, in order). -/
def cacheWellFormed (c : ReadingCache) : Prop :=
  c.readings = [] ∨ c.readings.map DiskReading.drive = c.devices.map DeviceSpec.drive

/-! Concrete samples used by witnesses. -/

def sampleSpec : DeviceSpec :=
  { raw := "/dev/sda", drive := "/dev/sda", smartctl_type := none }

def sampleKnown : DiskReading :=
  { drive := "/dev/sda", model := "DiskA", status := "KNOWN",
    temperature_c := some 35, detail := "" }

def sampleCache : ReadingCache :=
  { devices := [sampleSpec], wake_up := false, min_interval := 60,
    last_update := 0, readings := [sampleKnown] }

def sampleOutcomes : DeviceSpec → RunOutcome := fun _ => RunOutcome.timedOut

/-! Helper lemmas shared between the claim theorems. -/

/-- Without an extracted temperature, message sniffing never yields `KNOWN`. -/
theorem infer_status_no_temp_ne_known (m : String) :
    infer_status_from_messages m false ≠ "KNOWN" := by
  simp only [infer_status_from_messages]
  split_ifs <;> simp_all

/-- The classifier keeps the device path as the reading's drive. -/
theorem classify_drive (spec : DeviceSpec) (p : JDict) (se : String) :
    (classify spec p se).drive = spec.drive := by
  unfold classify
  cases h : extract_temperature_c p <;> simp [h]

/-- The classifier satisfies the temperature/status invariant. -/
theorem classify_temp_iff (spec : DeviceSpec) (p : JDict) (se : String) :
    ((classify spec p se).temperature_c).isSome = true ↔
      (classify spec p se).status = "KNOWN" := by
  unfold classify
  cases h : extract_temperature_c p with
  | none => simp [h, infer_status_no_temp_ne_known]
  | some t => simp [h]

/-- Every reading produced by `run_smartctl` carries the device path. -/
theorem run_smartctl_drive (spec : DeviceSpec) (w : Bool) (o : RunOutcome) :
    (run_smartctl spec w o).drive = spec.drive := by
  cases o with
  | notFound => rfl
  | timedOut => rfl
  | ran so se pr =>
    unfold run_smartctl
    by_cases h : strTrim so = ""
    · simp [h, classify_drive]
    · cases pr with
      | none => simp [h]
      | some p => simp [h, classify_drive]

/-! Claim theorems. -/

/-- C1: every `DiskReading` produced by `run_smartctl` — for any device spec,
wake flag and tool outcome — has a present temperature iff its status is
`KNOWN`. -/
theorem run_smartctl_temp_iff_known (spec : DeviceSpec) (wake_up : Bool) (outcome : RunOutcome) :
    ((run_smartctl spec wake_up outcome).temperature_c).isSome = true ↔
      (run_smartctl spec wake_up outcome).status = "KNOWN" := by
  cases outcome with
  | notFound => simp [run_smartctl]
  | timedOut => simp [run_smartctl]
  | ran so se pr =>
    unfold run_smartctl
    by_cases h : strTrim so = ""
    · simp [h, classify_temp_iff]
    · cases pr with
      | none => simp [h]
      | some p => simp [h, classify_temp_iff]

/-- C2: with a snapshot present and both calls inside the minimum interval,
two consecutive `get` calls refresh nothing (the refresh condition is false
and the state is unchanged, so no diagnostic invocation occurs) and both
return the stored snapshot unchanged. -/
theorem cache_get_idempotent_within_interval
    (c : ReadingCache) (now1 now2 : ℚ) (o1 o2 : DeviceSpec → RunOutcome)
    (hne : c.readings ≠ [])
    (h1 : now1 - c.last_update < (c.min_interval : ℚ))
    (h2 : now2 - c.last_update < (c.min_interval : ℚ)) :
    c.refreshes now1 = false ∧
    (c.get now1 o1).1 = c.readings ∧
    (c.get now1 o1).2 = c ∧
    ((c.get now1 o1).2).refreshes now2 = false ∧
    (((c.get now1 o1).2).get now2 o2).1 = c.readings ∧
    (((c.get now1 o1).2).get now2 o2).2 = c := by
  have hne' : c.readings.isEmpty = false := by
    cases hcr : c.readings with
    | nil => exact absurd hcr hne
    | cons a l => simp
  have hr1 : c.refreshes now1 = false := by
    simp only [ReadingCache.refreshes, hne', Bool.false_or, decide_eq_false_iff_not]
    exact not_le.mpr h1
  have hr2 : c.refreshes now2 = false := by
    simp only [ReadingCache.refreshes, hne', Bool.false_or, decide_eq_false_iff_not]
    exact not_le.mpr h2
  have hget1 : c.get now1 o1 = (c.readings, c) := by
    simp [ReadingCache.get, hr1]
  have hget2 : c.get now2 o2 = (c.readings, c) := by
    simp [ReadingCache.get, hr2]
  exact ⟨hr1, by rw [hget1], by rw [hget1],
    by rw [hget1]; exact hr2, by rw [hget1, hget2], by rw [hget1, hget2]⟩

/-- Witness for C2 at a concrete cache state and times 1 and 2. -/
theorem cache_get_idempotent_within_interval_witness :
    (sampleCache.get 1 sampleOutcomes).1 = sampleCache.readings ∧
    ((sampleCache.get 1 sampleOutcomes).2.get 2 sampleOutcomes).1 = sampleCache.readings ∧
    ((sampleCache.get 1 sampleOutcomes).2.get 2 sampleOutcomes).2 = sampleCache := by
  have h := cache_get_idempotent_within_interval sampleCache 1 2 sampleOutcomes sampleOutcomes
    (by simp [sampleCache]) (by norm_num [sampleCache]) (by norm_num [sampleCache])
  exact ⟨h.2.1, h.2.2.2.2.1, h.2.2.2.2.2⟩

/-- C3 counterexample: an `ERR` reading rendered in direct mode with both the
numeric and quiet flags set yields `"0\n"` on stdout and does NOT set the
hard-error indicator, so the claim fails for that flag combination. -/
theorem direct_mode_err_numeric_quiet_no_hard_error :
    direct_mode_output
      { drive := "/dev/sda", model := "DiskA", status := "ERR",
        temperature_c := none, detail := "boom" } true true "C" = ("0\n", true, false) := by
  rfl

/-- C3 amended: rendering an `ERR` reading in direct mode sets the hard-error
indicator for every combination of flags and unit except when the numeric and
quiet flags are both set (then it prints `0` with no hard error). -/
theorem direct_mode_err_hard_error_unless_numeric_quiet
    (r : DiskReading) (numeric quiet : Bool) (unit : String)
    (hs : r.status = "ERR") (hq : numeric = false ∨ quiet = false) :
    (direct_mode_output r numeric quiet unit).2.2 = true := by
  have hnq : (numeric && quiet) = false := by
    rcases hq with h | h <;> simp [h]
  have hfb : (direct_mode_fallback r numeric quiet).2.2 = true := by
    unfold direct_mode_fallback
    simp [hnq, hs]
  cases ht : r.temperature_c with
  | none => simpa [direct_mode_output, ht] using hfb
  | some t => simpa [direct_mode_output, ht, hs] using hfb

/-- Witness for the amended C3 at a concrete `ERR` reading without the
numeric/quiet combination. -/
theorem direct_mode_err_hard_error_unless_numeric_quiet_witness :
    (direct_mode_output
      { drive := "/dev/sda", model := "DiskA", status := "ERR",
        temperature_c := none, detail := "" } false false "C").2.2 = true :=
  direct_mode_err_hard_error_unless_numeric_quiet _ false false "C" rfl (Or.inl rfl)

/-- Payload carrying both an extractable temperature and error-like marker
text in its message list. -/
def sampleMarkerPayload : JDict :=
  [("temperature", Json.obj [("current", Json.int 35)]),
   ("smartctl", Json.obj [("messages", Json.arr
      [Json.obj [("string", Json.str "Device is in STANDBY mode, no such device")]])])]

/-- C4: whenever a temperature is extracted from the parsed payload actually
used by `run_smartctl`, the produced reading has status `KNOWN` and carries
that temperature, whatever marker text the messages or stderr contain. -/
theorem run_smartctl_extracted_temp_forces_known
    (spec : DeviceSpec) (wake_up : Bool) (stdout stderr : String) (parsed : JDict) (t : Int)
    (hso : strTrim stdout ≠ "")
    (ht : extract_temperature_c parsed = some t) :
    (run_smartctl spec wake_up (.ran stdout stderr (some parsed))).status = "KNOWN" ∧
    (run_smartctl spec wake_up (.ran stdout stderr (some parsed))).temperature_c = some t := by
  constructor <;> simp [run_smartctl, hso, classify, ht]

/-- Witness for C4: temperature 35 plus "standby"/"no such device"/"permission
denied" marker text still classifies as `KNOWN`. -/
theorem run_smartctl_extracted_temp_forces_known_witness :
    (run_smartctl sampleSpec false
      (.ran "x" "Permission denied" (some sampleMarkerPayload))).status = "KNOWN" ∧
    (run_smartctl sampleSpec false
      (.ran "x" "Permission denied" (some sampleMarkerPayload))).temperature_c = some 35 :=
  run_smartctl_extracted_temp_forces_known sampleSpec false "x" "Permission denied"
    sampleMarkerPayload 35 (by decide) (by rfl)

/-- Payload whose generic temperature candidate is rejected by normalization
(9999 Kelvin-adjusts to 9726, implausible) with a SCSI candidate behind it. -/
def sampleRejectPayload : JDict :=
  [("temperature", Json.obj [("current", Json.int 9999)]),
   ("scsi_temperature", Json.obj [("current", Json.int 40)])]

/-- C5: for every integer `t`, normalization subtracts 273 exactly when
`t > 200` and accepts the result iff the adjusted value lies in [-80, 200];
and a rejected generic candidate makes extraction proceed to the remaining
sources. -/
theorem normalize_temp_spec :
    (∀ t : Int, normalize_temp_c (some (Json.int t)) =
      (if -80 ≤ (if 200 < t then t - 273 else t) ∧ (if 200 < t then t - 273 else t) ≤ 200
       then some (if 200 < t then t - 273 else t) else none)) ∧
    (∀ data : JDict, extractTempGeneric data = none →
      extract_temperature_c data =
        (match extractTempScsi data with
         | some v => some v
         | none =>
           match extractTempNvme data with
           | some v => some v
           | none => extractTempAta data)) := by
  constructor
  · intro t
    simp only [normalize_temp_c, parse_int]
    split_ifs <;> first | rfl | (exfalso; omega)
  · intro data h
    simp [extract_temperature_c, h]

/-- Witness for C5: 300 normalizes to 27, and a concrete payload with a
rejected generic candidate falls through to the later sources. -/
theorem normalize_temp_spec_witness :
    normalize_temp_c (some (Json.int 300)) = some 27 ∧
    extract_temperature_c sampleRejectPayload =
      (match extractTempScsi sampleRejectPayload with
       | some v => some v
       | none =>
         match extractTempNvme sampleRejectPayload with
         | some v => some v
         | none => extractTempAta sampleRejectPayload) := by
  refine ⟨?_, normalize_temp_spec.2 sampleRejectPayload (by rfl)⟩
  have h := normalize_temp_spec.1 300
  simpa using h

/-- An ATA attribute-table row with the given id and raw value. -/
def ataRow (i : Int) (v : Json) : Json :=
  Json.obj [("id", Json.int i), ("raw", Json.obj [("value", v)])]

/-- A payload whose only content is an ATA attribute table. -/
def ataPayload (table : List Json) : JDict :=
  [("ata_smart_attributes", Json.obj [("table", Json.arr table)])]

/-- Table with rows for ids 1, 194 and 231 where the id-194 value (10000)
fails normalization. -/
def cexAtaPayload : JDict :=
  ataPayload [ataRow 1 (Json.int 0), ataRow 194 (Json.int 10000), ataRow 231 (Json.int 40)]

/-- C6 counterexample: a table containing rows for ids 1, 194 and 231 from
which extraction returns the id-231 value 40, not the id-194 value (10000 is
rejected by normalization, which yields none), refuting the unconditional
id-194 priority claim. -/
theorem ata_priority_rejected_value_cex :
    extract_temperature_c cexAtaPayload = some 40 ∧
    extract_temperature_c cexAtaPayload ≠ some 10000 ∧
    normalize_temp_c (some (Json.int 10000)) = none := by
  refine ⟨by rfl, by decide, by rfl⟩

/-- C6 amended: extraction tries the generic, SCSI, NVMe and ATA sources in
that fixed order, first accepted value wins; and for a table holding rows for
ids 1, 194 and 231 in any order, extraction returns the normalized id-194
value provided normalization accepts it (otherwise it falls back to ids 190
then 231). -/
theorem extract_order_and_ata_priority :
    (∀ data : JDict, extract_temperature_c data =
      (match extractTempGeneric data with
       | some v => some v
       | none =>
         match extractTempScsi data with
         | some v => some v
         | none =>
           match extractTempNvme data with
           | some v => some v
           | none => extractTempAta data)) ∧
    (∀ (x1 x194 x231 : Json) (v : Int) (table : List Json),
      (table = [ataRow 1 x1, ataRow 194 x194, ataRow 231 x231] ∨
       table = [ataRow 1 x1, ataRow 231 x231, ataRow 194 x194] ∨
       table = [ataRow 194 x194, ataRow 1 x1, ataRow 231 x231] ∨
       table = [ataRow 194 x194, ataRow 231 x231, ataRow 1 x1] ∨
       table = [ataRow 231 x231, ataRow 1 x1, ataRow 194 x194] ∨
       table = [ataRow 231 x231, ataRow 194 x194, ataRow 1 x1]) →
      normalize_temp_c (some x194) = some v →
      extract_temperature_c (ataPayload table) = some v) := by
  constructor
  · intro data; rfl
  · intro x1 x194 x231 v table hperm hv
    rcases hperm with h | h | h | h | h | h <;> subst h <;>
      simp [extract_temperature_c, extractTempGeneric, extractTempScsi, extractTempNvme,
            extractTempAta, ataPayload, ataRow, dictGet, findAtaRow, ataRowValue, jsonIdEq, hv]

/-- Table for the C6 witness: rows 231, 194, 1 in scrambled order with
acceptable values. -/
def witnessAtaTable : List Json :=
  [ataRow 231 (Json.int 50), ataRow 194 (Json.int 34), ataRow 1 (Json.int 0)]

/-- Witness for the amended C6: scrambled row order still selects id 194. -/
theorem extract_order_and_ata_priority_witness :
    extract_temperature_c (ataPayload witnessAtaTable) = some 34 :=
  extract_order_and_ata_priority.2 (Json.int 0) (Json.int 34) (Json.int 50) 34
    witnessAtaTable (Or.inr (Or.inr (Or.inr (Or.inr (Or.inr rfl))))) (by rfl)

/-- Propositional form of the formatter's status-to-field coercion. -/
theorem status_field_eq (st : String) :
    status_field st =
      if st = "NA" ∨ st = "UNK" ∨ st = "NOS" ∨ st = "SLP" ∨ st = "ERR" then st else "ERR" := by
  simp only [status_field, Bool.or_eq_true, beq_iff_eq, or_assoc]

/-- C7: the daemon payload is the concatenation of one record per reading with
no newline; a `KNOWN` record holds the unit-converted temperature and the unit
code (Fahrenheit rounds `c*9/5+32`, so 30 °C renders as 86 °F); a non-`KNOWN`
record holds the status code (unrecognized statuses coerced to `ERR`) and a
literal `*`; and the concrete single-reading example renders exactly as
specified. -/
theorem format_daemon_payload_spec :
    format_daemon_payload [sampleKnown] "|" "C" = "|/dev/sda|DiskA|35|C|" ∧
    convert_temperature 30 "F" = 86 ∧
    (∀ separator unit : String, format_daemon_payload [] separator unit = "") ∧
    (∀ (r : DiskReading) (rest : List DiskReading) (separator unit : String),
      format_daemon_payload (r :: rest) separator unit =
        daemon_record separator unit r ++ format_daemon_payload rest separator unit) ∧
    (∀ (d m dt : String) (t : Int) (separator unit : String),
      daemon_record separator unit
          { drive := d, model := m, status := "KNOWN", temperature_c := some t, detail := dt } =
        separator ++ d ++ separator ++ m ++ separator
          ++ toString (convert_temperature t unit) ++ separator ++ unit ++ separator) ∧
    (∀ (r : DiskReading) (separator unit : String), r.status ≠ "KNOWN" →
      daemon_record separator unit r =
        separator ++ r.drive ++ separator ++ r.model ++ separator
          ++ (if r.status = "NA" ∨ r.status = "UNK" ∨ r.status = "NOS" ∨ r.status = "SLP"
                ∨ r.status = "ERR" then r.status else "ERR")
          ++ separator ++ "*" ++ separator) := by
  refine ⟨rfl, rfl, fun _ _ => rfl, fun _ _ _ _ => rfl, fun _ _ _ _ _ _ => rfl, ?_⟩
  intro r separator unit h
  cases ht : r.temperature_c with
  | none => simp [daemon_record, ht, status_field_eq]
  | some t => simp [daemon_record, ht, beq_iff_eq, h, status_field_eq]

/-- A sleeping-drive reading for the C7 witness. -/
def sampleSlp : DiskReading :=
  { drive := "/dev/sdb", model := "DiskB", status := "SLP", temperature_c := none, detail := "" }

/-- Witness for C7: a non-`KNOWN` (`SLP`) reading renders with the status code
and a literal `*`. -/
theorem format_daemon_payload_spec_witness :
    format_daemon_payload [sampleSlp] "|" "C" = "|/dev/sdb|DiskB|SLP|*|" := by
  have h := format_daemon_payload_spec.2.2.2.2.2 sampleSlp "|" "C" (by decide)
  have h2 : format_daemon_payload [sampleSlp] "|" "C" = daemon_record "|" "C" sampleSlp := by
    simp [format_daemon_payload]
  rw [h2, h]
  decide

/-- C8: `get` is a total function (it cannot raise) and, from any well-formed
cache state and any outcomes of the per-device invocations, returns exactly
one reading per configured device in configuration order, preserves
well-formedness, equals the full per-device batch whenever a refresh runs,
and every invocation failure (tool missing, timeout, undecodable output)
surfaces only as that device's reading with status `ERR`. -/
theorem cache_get_total_per_device
    (c : ReadingCache) (now : ℚ) (outcomes : DeviceSpec → RunOutcome)
    (hwf : cacheWellFormed c) :
    ((c.get now outcomes).1).length = c.devices.length ∧
    ((c.get now outcomes).1).map DiskReading.drive = c.devices.map DeviceSpec.drive ∧
    cacheWellFormed (c.get now outcomes).2 ∧
    (c.refreshes now = true →
      (c.get now outcomes).1 =
        c.devices.map (fun device => run_smartctl device c.wake_up (outcomes device))) ∧
    (∀ (spec : DeviceSpec) (w : Bool),
      (run_smartctl spec w .notFound).status = "ERR" ∧
      (run_smartctl spec w .timedOut).status = "ERR") ∧
    (∀ (spec : DeviceSpec) (w : Bool) (stdout stderr : String), strTrim stdout ≠ "" →
      (run_smartctl spec w (.ran stdout stderr none)).status = "ERR") := by
  have herr : ∀ (spec : DeviceSpec) (w : Bool),
      (run_smartctl spec w .notFound).status = "ERR" ∧
      (run_smartctl spec w .timedOut).status = "ERR" := fun _ _ => ⟨rfl, rfl⟩
  have herr2 : ∀ (spec : DeviceSpec) (w : Bool) (stdout stderr : String), strTrim stdout ≠ "" →
      (run_smartctl spec w (.ran stdout stderr none)).status = "ERR" := by
    intro spec w stdout stderr h
    simp [run_smartctl, h]
  have hdrive :
      (c.devices.map (fun device => run_smartctl device c.wake_up (outcomes device))).map
        DiskReading.drive = c.devices.map DeviceSpec.drive := by
    have hfun : (DiskReading.drive ∘ fun device => run_smartctl device c.wake_up (outcomes device))
        = DeviceSpec.drive := funext fun d => run_smartctl_drive d c.wake_up (outcomes d)
    rw [List.map_map, hfun]
  by_cases hr : c.refreshes now
  · have hget : c.get now outcomes =
        (c.devices.map (fun device => run_smartctl device c.wake_up (outcomes device)),
         { c with
            readings := c.devices.map (fun device => run_smartctl device c.wake_up (outcomes device)),
            last_update := now }) := by
      simp [ReadingCache.get, hr]
    rw [hget]
    exact ⟨by simp, hdrive, Or.inr hdrive, fun _ => rfl, herr, herr2⟩
  · have hget : c.get now outcomes = (c.readings, c) := by
      simp [ReadingCache.get, hr]
    have hne : c.readings ≠ [] := by
      intro hnil
      exact hr (by simp [ReadingCache.refreshes, hnil])
    have hw := hwf.resolve_left hne
    rw [hget]
    refine ⟨?_, hw, hwf, fun habs => absurd habs hr, herr, herr2⟩
    have hlen := congrArg List.length hw
    simpa using hlen

/-- Fresh cache for the C8 witness. -/
def sampleEmptyCache : ReadingCache := ReadingCache.init [sampleSpec] false 60

/-- Witness for C8 at a fresh cache whose single invocation times out. -/
theorem cache_get_total_per_device_witness :
    ((sampleEmptyCache.get 5 sampleOutcomes).1).length = sampleEmptyCache.devices.length ∧
    cacheWellFormed (sampleEmptyCache.get 5 sampleOutcomes).2 := by
  have h := cache_get_total_per_device sampleEmptyCache 5 sampleOutcomes (Or.inl rfl)
  exact ⟨h.1, h.2.2.1⟩

/-- C10 counterexample: with empty stdout, empty stderr and a device path
carrying surrounding whitespace, the reading is `NOS` without temperature as
claimed, but its model is the stripped path, not the device path itself. -/
theorem empty_stdout_model_trim_cex :
    (run_smartctl { raw := " /dev/sda ", drive := " /dev/sda ", smartctl_type := none }
        false (.ran "" "" none)).status = "NOS" ∧
    (run_smartctl { raw := " /dev/sda ", drive := " /dev/sda ", smartctl_type := none }
        false (.ran "" "" none)).temperature_c = none ∧
    (run_smartctl { raw := " /dev/sda ", drive := " /dev/sda ", smartctl_type := none }
        false (.ran "" "" none)).model = "/dev/sda" ∧
    (run_smartctl { raw := " /dev/sda ", drive := " /dev/sda ", smartctl_type := none }
        false (.ran "" "" none)).model ≠ " /dev/sda " := by
  exact ⟨rfl, rfl, rfl, by decide⟩

/-- The eight marker substrings the status sniffer reacts to. -/
def statusMarkers : List String :=
  ["standby", "sleep", "permission denied", "unable to open device",
   "no such device", "cannot open", "smart support is: unavailable", "unknown usb bridge"]

/-- Whether the lowercased text contains any status marker. -/
def hasMarker (s : String) : Bool :=
  statusMarkers.any (fun m => containsSub (strLower s) m)

/-- Joining a single string changes nothing. -/
theorem intercalate_singleton (s x : String) : String.intercalate s [x] = x := rfl

/-- With an empty payload, the gathered messages are exactly the stderr text. -/
theorem gather_messages_nil (stderr : String) :
    gather_messages [] stderr = stderr := by
  by_cases h : stderr = ""
  · subst h; rfl
  · unfold gather_messages
    simp [h, dictGet, intercalate_singleton]

/-- Without an extracted temperature and with marker-free message text, the
status sniffer lands on the default `NOS`. -/
theorem infer_status_no_markers (s : String) (hm : hasMarker s = false) :
    infer_status_from_messages s false = "NOS" := by
  simp only [hasMarker, statusMarkers, List.any_cons, List.any_nil,
    Bool.or_eq_false_iff] at hm
  obtain ⟨m1, m2, m3, m4, m5, m6, m7, m8, -⟩ := hm
  simp only [infer_status_from_messages, m1, m2, m3, m4, m5, m6, m7, m8]
  simp

/-- Fully reduced form of classifying an empty payload. -/
theorem classify_nil_eq (spec : DeviceSpec) (stderr : String) :
    classify spec [] stderr =
      { drive := spec.drive, model := extract_model [] spec.drive,
        status := infer_status_from_messages (gather_messages [] stderr) false,
        temperature_c := none, detail := strTrim (gather_messages [] stderr) } := rfl

/-- With an empty payload, the extracted model is the stripped drive path
(the path itself when blank). -/
theorem extract_model_nil (drive : String) :
    extract_model [] drive = (if strTrim drive = "" then drive else strTrim drive) := by
  by_cases h : strTrim drive = "" <;>
    simp [extract_model, first_non_empty_string, dictGet, h]

/-- C10 amended: when the tool exits with empty or whitespace-only stdout, the
result ignores the JSON decoder entirely (no unparseable-output `ERR`
reading) and classifies the empty payload: with no marker text on stderr the
reading has status `NOS`, no temperature, and as model the device path
stripped of surrounding whitespace (the path itself when blank). -/
theorem empty_stdout_classified_nos
    (spec : DeviceSpec) (wake_up : Bool) (stdout stderr : String) (pr : Option JDict)
    (hso : strTrim stdout = "")
    (hm : hasMarker stderr = false) :
    run_smartctl spec wake_up (.ran stdout stderr pr) = classify spec [] stderr ∧
    (run_smartctl spec wake_up (.ran stdout stderr pr)).status = "NOS" ∧
    (run_smartctl spec wake_up (.ran stdout stderr pr)).temperature_c = none ∧
    (run_smartctl spec wake_up (.ran stdout stderr pr)).model =
      (if strTrim spec.drive = "" then spec.drive else strTrim spec.drive) := by
  have hrun : run_smartctl spec wake_up (.ran stdout stderr pr) = classify spec [] stderr := by
    simp [run_smartctl, hso]
  refine ⟨hrun, ?_, ?_, ?_⟩
  · rw [hrun, classify_nil_eq]
    show infer_status_from_messages (gather_messages [] stderr) false = "NOS"
    rw [gather_messages_nil]
    exact infer_status_no_markers stderr hm
  · rw [hrun, classify_nil_eq]
  · rw [hrun, classify_nil_eq]
    exact extract_model_nil spec.drive

/-- Witness for the amended C10: whitespace-only stdout with empty stderr. -/
theorem empty_stdout_classified_nos_witness :
    (run_smartctl sampleSpec false (.ran "  " "" none)).status = "NOS" ∧
    (run_smartctl sampleSpec false (.ran "  " "" none)).temperature_c = none ∧
    (run_smartctl sampleSpec false (.ran "  " "" none)).model = "/dev/sda" := by
  have h := empty_stdout_classified_nos sampleSpec false "  " "" none (by decide) (by decide)
  refine ⟨h.2.1, h.2.2.1, ?_⟩
  rw [h.2.2.2]
  decide

end HddTemp
